import Mathlib

/-!
Verification of the flow-installation core of `shortest_forwarding.py`
(the ShortestForwarding Ryu application).

The Python code is shallowly embedded: every function below mirrors one
method of the `ShortestForwarding` class.  Switch identifiers, port
numbers and IP addresses are modelled as `Nat` (they are opaque values
used only for equality and table lookup).  Python dictionaries that the
code only reads are modelled as association lists (`List (key × value)`),
looked up with `List.lookup`, which returns the first binding of a key,
matching the unique-key dictionaries of the source.  A Python `KeyError`
raised by `dict[key]` subscription, and the `AttributeError` /
`TypeError` / `IndexError` raised by operations on `None`, are modelled
with an explicit error component: an effectful method returns the list
of control-channel messages it sent before returning or raising
(`List Event`) together with `Option PyError` (`none` = returned
normally, `some e` = exception `e` escaped).
-/

abbrev Dpid := Nat
abbrev Port := Nat
abbrev Addr := Nat

/-- The triple `(eth_type, ipv4_src, ipv4_dst)` consumed by `send_flow_mod`
(`flow_info[0]`, `flow_info[1]`, `flow_info[2]` in the source). -/
abbrev Info := Nat × Addr × Addr

/-- `link_to_port`: maps the ordered switch pair `(src_dpid, dst_dpid)` to the
port pair `(port on src, port on dst)`. -/
abbrev LinkMap := List ((Dpid × Dpid) × (Port × Port))

/-- `access_table`: maps the access point `(sw, port)` to the host `(ip, mac)`. -/
abbrev AccessTable := List ((Dpid × Port) × (Addr × Addr))

/-- `shortest_paths`: maps a source switch to a map from destination switch to
the list of precomputed paths, best first (`shortest_paths[src][dst]` is a list
of paths; the code takes element `[0]`). -/
abbrev PathTable := List (Dpid × List (Dpid × List (List Dpid)))

/-- Python exceptions that the embedded methods can raise. -/
inductive PyError where
  | keyError
  | attributeError
  | typeError
  | indexError
deriving DecidableEq, Repr

/-- OpenFlow 1.3 constant `OFP_NO_BUFFER`. -/
def OFP_NO_BUFFER : Nat := 4294967295

/-- OpenFlow 1.3 constant `OFPP_CONTROLLER`. -/
def OFPP_CONTROLLER : Port := 4294967293

/-- OpenFlow 1.3 constant `OFPP_LOCAL` (assigned to `out_port` at the start of
`install_flow`; always overwritten before use). -/
def OFPP_LOCAL : Port := 4294967294

/-- A message written to a switch control channel.

* `flowMod dpid priority eth ipv4_src ipv4_dst in_port out_port idle hard`
  models the `OFPFlowMod` built by `send_flow_mod`/`add_flow`: match
  `(in_port, eth_type, ipv4_src, ipv4_dst)`, single apply-action
  `OFPActionOutput out_port`, with the given priority and timeouts.
* `packetOut dpid buffer_id in_port actions data` models the
  `OFPPacketOut` built by `_build_packet_out`.
-/
inductive Event where
  | flowMod (dpid : Dpid) (priority : Nat) (eth : Nat) (ipv4_src ipv4_dst : Addr)
      (in_port out_port : Port) (idle hard : Nat)
  | packetOut (dpid : Dpid) (buffer_id : Nat) (in_port : Port) (actions : List Port)
      (data : Option Nat)
deriving DecidableEq, Repr

/-- The action list of a packet-out: `OFPActionOutput dst_port` is appended
only when `dst_port` is truthy (`if dst_port:` in `_build_packet_out`). -/
def outActs (dst_port : Port) : List Port :=
  if dst_port ≠ 0 then [dst_port] else []

/-- `send_flow_mod` (together with `add_flow`, which it calls with priority 1,
idle timeout 15 and hard timeout 60): builds the flow entry for `datapath`
matching `(src_port, flow_info[0], flow_info[1], flow_info[2])` with output
action `dst_port`. -/
def send_flow_mod (dpid : Dpid) (flow_info : Info) (src_port dst_port : Port) : Event :=
  .flowMod dpid 1 flow_info.1 flow_info.2.1 flow_info.2.2 src_port dst_port 15 60

/-- `_build_packet_out`: returns `none` exactly when `buffer_id` is
`OFP_NO_BUFFER` and `data` is `None`; attaches `data` to the message only in
the `OFP_NO_BUFFER` case (`msg_data`). -/
def _build_packet_out (dpid : Dpid) (buffer_id : Nat) (src_port dst_port : Port)
    (data : Option Nat) : Option Event :=
  if buffer_id = OFP_NO_BUFFER then
    match data with
    | none => none
    | some d => some (.packetOut dpid buffer_id src_port (outActs dst_port) (some d))
  else
    some (.packetOut dpid buffer_id src_port (outActs dst_port) none)

/-- `send_packet_out`: sends the built packet-out if `_build_packet_out`
returned one (`if out:`), otherwise sends nothing. -/
def send_packet_out (dpid : Dpid) (buffer_id : Nat) (src_port dst_port : Port)
    (data : Option Nat) : List Event :=
  match _build_packet_out dpid buffer_id src_port dst_port data with
  | some out => [out]
  | none => []

/-- `get_port`: scans `access_table` for the first entry whose host IP equals
`dst_ip` and returns that entry's port (`key[1]`); `None` when the table is
empty or no entry matches.  (The `isinstance(..., tuple)` guard of the source
always holds in this typed model.) -/
def get_port (dst_ip : Addr) (access_table : AccessTable) : Option Port :=
  match access_table.find? (fun e => e.2.1 = dst_ip) with
  | some e => some e.1.2
  | none => none

/-- `get_port_pair_from_link`: `link_to_port[(src_dpid, dst_dpid)]` when the
key is present, else `None` (with a log line). -/
def get_port_pair_from_link (link_to_port : LinkMap) (src_dpid dst_dpid : Dpid) :
    Option (Port × Port) :=
  link_to_port.lookup (src_dpid, dst_dpid)

/-- Modelled from the spec: `getHostLocation(addr) -> AccessPoint | None` is
provided by the topology collaborator (`network_awareness`), whose source is
not part of this repository snapshot.  Per §6 and §4.3 of the specification it
returns the access point `(sw, port)` of the `access_table` entry recorded for
the given host address, or `None` when the address has no entry. -/
def get_host_location (access_table : AccessTable) (host_ip : Addr) : Option (Dpid × Port) :=
  match access_table.find? (fun e => e.2.1 = host_ip) with
  | some e => some e.1
  | none => none

/-- The read-only attributes of the `network_awareness` collaborator consumed
by `ShortestForwarding`. -/
structure Awareness where
  access_ports : List (Dpid × List Port)
  access_table : AccessTable
  link_to_port : LinkMap
  shortest_paths : PathTable
deriving Repr

/-- Inner loop of `flood` over the ports of one switch: a port with an
`access_table` record is skipped; otherwise `self.datapaths[dpid]` is
subscripted (KeyError when absent) and the ARP payload is sent out that port
from `OFPP_CONTROLLER` with `OFP_NO_BUFFER`. -/
def floodPorts (datapaths : List Dpid) (access_table : AccessTable) (data : Nat)
    (dpid : Dpid) : List Port → List Event × Option PyError
  | [] => ([], none)
  | port :: rest =>
    if (access_table.lookup (dpid, port)).isSome then
      floodPorts datapaths access_table data dpid rest
    else if dpid ∈ datapaths then
      match _build_packet_out dpid OFP_NO_BUFFER OFPP_CONTROLLER port (some data) with
      | some out =>
        let r := floodPorts datapaths access_table data dpid rest
        (out :: r.1, r.2)
      | none =>
        -- unreachable at this call: buffer is OFP_NO_BUFFER and data is present,
        -- so _build_packet_out returns a message
        ([], none)
    else ([], some .keyError)

/-- Outer loop of `flood` over `self.awareness.access_ports`. -/
def floodLoop (datapaths : List Dpid) (access_table : AccessTable) (data : Nat) :
    List (Dpid × List Port) → List Event × Option PyError
  | [] => ([], none)
  | (dpid, ports) :: rest =>
    let r := floodPorts datapaths access_table data dpid ports
    match r.2 with
    | some e => (r.1, some e)
    | none =>
      let r2 := floodLoop datapaths access_table data rest
      (r.1 ++ r2.1, r2.2)

/-- `flood`: for every access port of every switch that has no `access_table`
record, send the ARP payload out of that port. -/
def flood (datapaths : List Dpid) (awareness : Awareness) (data : Nat) :
    List Event × Option PyError :=
  floodLoop datapaths awareness.access_table data awareness.access_ports

/-- `arp_forwarding`: if `get_host_location(dst_ip)` finds a record, send the
payload out of that access point only (`self.datapaths[datapath_dst]` can
raise KeyError); otherwise `flood`.  (`src_ip` is accepted but unused, as in
the source.) -/
def arp_forwarding (datapaths : List Dpid) (awareness : Awareness) (data : Nat)
    (src_ip dst_ip : Addr) : List Event × Option PyError :=
  match get_host_location awareness.access_table dst_ip with
  | some result =>
    let datapath_dst := result.1
    let out_port := result.2
    if datapath_dst ∈ datapaths then
      match _build_packet_out datapath_dst OFP_NO_BUFFER OFPP_CONTROLLER out_port (some data) with
      | some out => ([out], none)
      | none =>
        -- unreachable at this call: buffer is OFP_NO_BUFFER and data is present
        ([], none)
    else ([], some .keyError)
  | none => flood datapaths awareness data

/-- `get_path`: `shortest_paths.get(src).get(dst)[0]`.  When `src` is absent,
`.get(src)` yields `None` and `None.get(dst)` raises `AttributeError`; when
`dst` is absent, `None[0]` raises `TypeError`; when the path list is empty,
`[0]` raises `IndexError`.  Otherwise the first (lowest-cost) path is
returned. -/
def get_path (shortest_paths : PathTable) (src dst : Dpid) : Except PyError (List Dpid) :=
  match shortest_paths.lookup src with
  | none => .error .attributeError
  | some inner =>
    match inner.lookup dst with
    | none => .error .typeError
    | some paths =>
      match paths with
      | [] => .error .indexError
      | q :: _ => .ok q

/-- Tail of `get_sw` shared by its non-`None` exits: look up the destination
host and return `(src_sw, dst_sw)` where `dst_sw` is the destination's switch
when learned and `None` otherwise (`if dst_location:`). -/
def get_sw_result (awareness : Awareness) (src_sw : Dpid) (dst : Addr) :
    Except PyError (Option (Dpid × Option Dpid)) :=
  .ok (some (src_sw, (get_host_location awareness.access_table dst).map (fun l => l.1)))

/-- `get_sw`: subscripting `access_ports[dpid]` raises KeyError when `dpid`
has no entry.  When `in_port` is one of that switch's access ports, the
recorded source location must equal `(dpid, in_port)` exactly, otherwise the
method returns `None`.  On the equal branch the source sets
`src_sw = src_location[0]`, which equals `dpid`. -/
def get_sw (awareness : Awareness) (dpid : Dpid) (in_port : Port) (src dst : Addr) :
    Except PyError (Option (Dpid × Option Dpid)) :=
  let src_location := get_host_location awareness.access_table src
  match awareness.access_ports.lookup dpid with
  | none => .error .keyError
  | some ports =>
    if in_port ∈ ports then
      if some (dpid, in_port) = src_location then
        get_sw_result awareness dpid dst
      else .ok none
    else get_sw_result awareness dpid dst

/-- Projection of `flow_info = (eth_type, src_ip, dst_ip, in_port)` to the
triple used for the forward direction. -/
def fiOf (flow_info : Nat × Addr × Addr × Port) : Info :=
  (flow_info.1, flow_info.2.1, flow_info.2.2.1)

/-- `back_info = (flow_info[0], flow_info[2], flow_info[1])`: source and
destination addresses swapped. -/
def backOf (flow_info : Nat × Addr × Addr × Port) : Info :=
  (flow_info.1, flow_info.2.2.1, flow_info.2.1)

/-- The `for i in range(1, len(path)-1)` loop of `install_flow`, recursing over
the windows `(path[i-1], path[i], path[i+1])`: `prev` is `path[i-1]` and the
list argument starts at `path[i]`.  When both port pairs are found
(`if port and port_next:`), `datapaths[path[i]]` is subscripted (KeyError when
absent) and the forward and reverse rules are installed on the interior
switch; when either pair is missing the iteration installs nothing and the
loop continues. -/
def install_inter_from (datapaths : List Dpid) (link_to_port : LinkMap)
    (flow_info back_info : Info) : Dpid → List Dpid → List Event × Option PyError
  | _, [] => ([], none)
  | _, [_] => ([], none)
  | prev, b :: c :: rest =>
    match get_port_pair_from_link link_to_port prev b,
          get_port_pair_from_link link_to_port b c with
    | some port, some port_next =>
      if b ∈ datapaths then
        let src_port := port.2
        let dst_port := port_next.1
        let r := install_inter_from datapaths link_to_port flow_info back_info b (c :: rest)
        (send_flow_mod b flow_info src_port dst_port ::
         send_flow_mod b back_info dst_port src_port :: r.1, r.2)
      else ([], some .keyError)
    | _, _ => install_inter_from datapaths link_to_port flow_info back_info b (c :: rest)

/-- The interior-switch loop of `install_flow` on a whole path. -/
def install_inter (datapaths : List Dpid) (link_to_port : LinkMap)
    (flow_info back_info : Info) : List Dpid → List Event × Option PyError
  | [] => ([], none)
  | a :: rest => install_inter_from datapaths link_to_port flow_info back_info a rest

/-- The `if len(path) > 1:` block of `install_flow` (lines 279-306): the
last-switch rules, the first-switch rules and the packet-out.  Aborts with no
messages when the last link's port pair or the destination's access port is
missing; aborts after the last-switch rules when the first link's port pair is
missing.  `p0` is `path[0]` (whose handle `first_dp` was already fetched), so
only `datapaths[path[-1]]` can raise here. -/
def install_edges (datapaths : List Dpid) (link_to_port : LinkMap)
    (access_table : AccessTable) (flow_info back_info : Info) (p0 : Dpid)
    (path : List Dpid) (in_port : Port) (buffer_id : Nat) (data : Option Nat) :
    List Event × Option PyError :=
  match get_port_pair_from_link link_to_port (path.getD (path.length - 2) 0)
      (path.getD (path.length - 1) 0) with
  | none => ([], none)          -- "Port is not found"
  | some port_pair =>
    let src_port := port_pair.2
    match get_port flow_info.2.2 access_table with
    | none => ([], none)        -- "Last port is not found."
    | some dst_port =>
      if (path.getD (path.length - 1) 0) ∈ datapaths then
        let last_dp := path.getD (path.length - 1) 0
        match get_port_pair_from_link link_to_port p0 (path.getD 1 0) with
        | none =>
          ([send_flow_mod last_dp flow_info src_port dst_port,
            send_flow_mod last_dp back_info dst_port src_port], none)
          -- "Port not found in first hop."
        | some port_pair2 =>
          let out_port := port_pair2.1
          ([send_flow_mod last_dp flow_info src_port dst_port,
            send_flow_mod last_dp back_info dst_port src_port,
            send_flow_mod p0 flow_info in_port out_port,
            send_flow_mod p0 back_info out_port in_port]
            ++ send_packet_out p0 buffer_id in_port out_port data, none)
      else ([], some .keyError)

/-- The `else` (same-datapath) block of `install_flow` (lines 308-316). -/
def install_same (access_table : AccessTable) (flow_info back_info : Info)
    (p0 : Dpid) (in_port : Port) (buffer_id : Nat) (data : Option Nat) :
    List Event × Option PyError :=
  match get_port flow_info.2.2 access_table with
  | none => ([], none)          -- "Out_port is None in same dp"
  | some out_port =>
    ([send_flow_mod p0 flow_info in_port out_port,
      send_flow_mod p0 back_info out_port in_port]
      ++ send_packet_out p0 buffer_id in_port out_port data, none)

/-- `install_flow`: returns immediately when `path` is `None` or empty; then
fetches `first_dp = datapaths[path[0]]` (KeyError when absent); then runs the
interior loop when `len(path) > 2`; then the two-edge block when
`len(path) > 1`, else the same-datapath block. -/
def install_flow (datapaths : List Dpid) (link_to_port : LinkMap)
    (access_table : AccessTable) (path : Option (List Dpid))
    (flow_info : Nat × Addr × Addr × Port) (buffer_id : Nat) (data : Option Nat) :
    List Event × Option PyError :=
  match path with
  | none => ([], none)          -- "Path error!"
  | some [] => ([], none)       -- "Path error!"
  | some (p0 :: prest) =>
    if p0 ∈ datapaths then
      match (if 2 < (p0 :: prest).length
             then install_inter datapaths link_to_port (fiOf flow_info) (backOf flow_info)
                    (p0 :: prest)
             else ([], none)) with
      | (evs, some e) => (evs, some e)
      | (evs, none) =>
        if 1 < (p0 :: prest).length then
          let edges := install_edges datapaths link_to_port access_table
            (fiOf flow_info) (backOf flow_info) p0 (p0 :: prest)
            flow_info.2.2.2 buffer_id data
          (evs ++ edges.1, edges.2)
        else
          install_same access_table (fiOf flow_info) (backOf flow_info) p0
            flow_info.2.2.2 buffer_id data
    else ([], some .keyError)

/-- True exactly on flow-rule submissions. -/
def isFlowMod : Event → Bool
  | .flowMod .. => true
  | .packetOut .. => false

/-- The switch a message is submitted to. -/
def eventDpid : Event → Dpid
  | .flowMod dpid .. => dpid
  | .packetOut dpid .. => dpid

/-- Number of flow rules in a trace submitted to switch `d`. -/
def flowModCount (evs : List Event) (d : Dpid) : Nat :=
  evs.countP (fun e => isFlowMod e && (eventDpid e == d))

/-- The reverse companion of a flow rule: same switch, source and destination
addresses swapped, ingress and output ports swapped.  Packet-outs are left
unchanged. -/
def revEvent : Event → Event
  | .flowMod dpid priority eth ipv4_src ipv4_dst in_port out_port idle hard =>
      .flowMod dpid priority eth ipv4_dst ipv4_src out_port in_port idle hard
  | .packetOut dpid buffer_id in_port actions data =>
      .packetOut dpid buffer_id in_port actions data

/-- A trace in which every flow rule is accompanied by its reverse companion
somewhere in the trace. -/
def pairClosed (evs : List Event) : Prop :=
  ∀ e ∈ evs, isFlowMod e = true → revEvent e ∈ evs

/-- The consecutive switch pairs of a path: the link of every hop. -/
def hops (p : List Dpid) : List (Dpid × Dpid) := p.zip p.tail

/-- The interior switches of a path (all but the first and the last). -/
def mids (p : List Dpid) : List Dpid := p.tail.dropLast

/-- Match key of a flow rule at a switch: `(dpid, priority, eth_type,
ipv4_src, ipv4_dst, in_port)`.  OpenFlow identifies a flow entry by its match
and priority, so a second `OFPFlowMod` with the same key replaces the entry
(refreshing its timers) instead of accumulating. -/
abbrev RuleKey := Dpid × Nat × Nat × Addr × Addr × Port

/-- The part of a flow entry the key does not determine: output action and
timeouts. -/
abbrev RuleVal := Port × Nat × Nat

/-- The rule written by a message, if any. -/
def eventRule : Event → Option (RuleKey × RuleVal)
  | .flowMod dpid priority eth ipv4_src ipv4_dst in_port out_port idle hard =>
      some ((dpid, priority, eth, ipv4_src, ipv4_dst, in_port), (out_port, idle, hard))
  | .packetOut .. => none

/-- Effect of one message on the (per-key) flow tables of the switches. -/
def applyEvent (tbl : RuleKey → Option RuleVal) (e : Event) : RuleKey → Option RuleVal :=
  match eventRule e with
  | some kv => Function.update tbl kv.1 (some kv.2)
  | none => tbl

/-- Flow tables reached from `tbl` after a trace of submissions. -/
def flowTableAfter (evs : List Event) (tbl : RuleKey → Option RuleVal) :
    RuleKey → Option RuleVal :=
  evs.foldl applyEvent tbl

/-- Written from the specification of flooding (§4.3), for comparison with
`flood`: one forward-only directive out of every access port that has no
host record, from the controller-facing logical port, carrying the original
payload, and nothing else. -/
def floodSpec (access_table : AccessTable) (data : Nat)
    (access_ports : List (Dpid × List Port)) : List Event :=
  (access_ports.map (fun pr =>
    (pr.2.filter (fun q => (access_table.lookup (pr.1, q)).isNone)).map
      (fun q => Event.packetOut pr.1 OFP_NO_BUFFER OFPP_CONTROLLER (outActs q) (some data)))).flatten

/-- `shortest_forwarding`: resolve the switch pair with `get_sw`; when the
result is truthy and `dst_sw` is truthy (non-`None` and nonzero), fetch the
path with `get_path` and call `install_flow`.  Exceptions raised by `get_sw`
or `get_path` propagate (there is no try/except in the handler). -/
def shortest_forwarding (datapaths : List Dpid) (awareness : Awareness)
    (dpid : Dpid) (in_port : Port) (buffer_id : Nat) (data : Option Nat)
    (eth_type : Nat) (ip_src ip_dst : Addr) : List Event × Option PyError :=
  match get_sw awareness dpid in_port ip_src ip_dst with
  | .error e => ([], some e)
  | .ok none => ([], none)
  | .ok (some (src_sw, dst_sw)) =>
    match dst_sw with
    | none => ([], none)
    | some d =>
      if d ≠ 0 then
        match get_path awareness.shortest_paths src_sw d with
        | .error e => ([], some e)
        | .ok path =>
          install_flow datapaths awareness.link_to_port awareness.access_table
            (some path) (eth_type, ip_src, ip_dst, in_port) buffer_id data
      else ([], none)

/-! ### Basic lemmas about the embedded operations -/

theorem hops_cons_cons (a b : Dpid) (l : List Dpid) :
    hops (a :: b :: l) = (a, b) :: hops (b :: l) := rfl

theorem dropLast_cons_cons (a b : Dpid) (l : List Dpid) :
    (a :: b :: l).dropLast = a :: (b :: l).dropLast := rfl

theorem install_inter_short (datapaths : List Dpid) (link_to_port : LinkMap)
    (fi back : Info) (p : List Dpid) (h : p.length ≤ 2) :
    install_inter datapaths link_to_port fi back p = ([], none) := by
  match p with
  | [] => rfl
  | [a] => rfl
  | [a, b] => rfl
  | a :: b :: c :: rest => simp at h

theorem install_inter_gate (datapaths : List Dpid) (link_to_port : LinkMap)
    (fi back : Info) (p : List Dpid) :
    (if 2 < p.length then install_inter datapaths link_to_port fi back p else ([], none))
      = install_inter datapaths link_to_port fi back p := by
  by_cases h : 2 < p.length
  · simp [h]
  · simp [h, install_inter_short datapaths link_to_port fi back p (by omega)]

theorem flowModCount_append (l1 l2 : List Event) (d : Dpid) :
    flowModCount (l1 ++ l2) d = flowModCount l1 d + flowModCount l2 d := by
  simp [flowModCount, List.countP_append]

theorem flowModCount_send (b : Dpid) (fi : Info) (x y : Port) (evs : List Event) (d : Dpid) :
    flowModCount (send_flow_mod b fi x y :: evs) d
      = flowModCount evs d + (if b = d then 1 else 0) := by
  by_cases hbd : b = d <;>
    simp [flowModCount, List.countP_cons, send_flow_mod, isFlowMod, eventDpid, hbd]

theorem flowModCount_nil (d : Dpid) : flowModCount [] d = 0 := rfl

/-! ### Claim C10: a `None` or empty path is rejected up front -/

/-- C10: if `install_flow` is called with a path that is `None` or has length
0, it returns immediately after logging, installing no forwarding rule and
sending no packet-out. -/
theorem C10_empty_path_noop (datapaths : List Dpid) (link_to_port : LinkMap)
    (access_table : AccessTable) (flow_info : Nat × Addr × Addr × Port)
    (buffer_id : Nat) (data : Option Nat) :
    install_flow datapaths link_to_port access_table none flow_info buffer_id data
      = ([], none)
    ∧ install_flow datapaths link_to_port access_table (some []) flow_info buffer_id data
      = ([], none) :=
  ⟨rfl, rfl⟩

/-! ### Claim C1, counterexample -/

/-- C1 as stated is false: on the 3-switch path `[1, 2, 3]`, with every link
port pair present, the destination access port resolved, every switch
registered and the packet deliverable, `install_flow` submits 6 forwarding
rules and 1 packet-out, while the claimed total `2 + 2(n-2)` is 4 for
`n = 3`.  (The claim's own per-switch breakdown — 2 on the first switch, 2 on
the last, 2 per interior switch — sums to `4 + 2(n-2)`, which is what the code
does.) -/
theorem C1_counterexample :
    (install_flow [1, 2, 3] [((1, 2), (12, 21)), ((2, 3), (23, 32))] [((3, 31), (100, 7))]
        (some [1, 2, 3]) (2048, 50, 100, 9) 0 none).2 = none
    ∧ ((install_flow [1, 2, 3] [((1, 2), (12, 21)), ((2, 3), (23, 32))] [((3, 31), (100, 7))]
        (some [1, 2, 3]) (2048, 50, 100, 9) 0 none).1.filter
          (fun e => isFlowMod e)).length = 6
    ∧ ((install_flow [1, 2, 3] [((1, 2), (12, 21)), ((2, 3), (23, 32))] [((3, 31), (100, 7))]
        (some [1, 2, 3]) (2048, 50, 100, 9) 0 none).1.filter
          (fun e => isFlowMod e = false)) = [Event.packetOut 1 0 9 [12] none]
    ∧ 6 ≠ 2 + 2 * (3 - 2) := by
  decide

/-! ### Claim C2, counterexample -/

/-- C2 as stated is false: on the path `[1, 2, 3, 4]` whose first link
`(1, 2)` is absent from `link_to_port`, the interior loop merely skips the hop
of switch 2 and keeps going: rules are still submitted for the remaining hops
(2 rules on interior switch 3 and 2 on last switch 4), so installation does
not abort at the failing hop. -/
theorem C2_counterexample :
    get_port_pair_from_link [((2, 3), (23, 32)), ((3, 4), (34, 43))] 1 2 = none
    ∧ install_flow [1, 2, 3, 4] [((2, 3), (23, 32)), ((3, 4), (34, 43))] [((4, 44), (100, 7))]
        (some [1, 2, 3, 4]) (2048, 50, 100, 9) 0 none
      = ([Event.flowMod 3 1 2048 50 100 32 34 15 60,
          Event.flowMod 3 1 2048 100 50 34 32 15 60,
          Event.flowMod 4 1 2048 50 100 43 44 15 60,
          Event.flowMod 4 1 2048 100 50 44 43 15 60], none) := by
  decide

/-! ### Claim C4, counterexample -/

/-- C4 as stated is false: for a pair absent from the shortest-path table,
`get_path` does not report a recoverable `PathNotFound` condition; it raises
an unhandled exception (`AttributeError` when the source switch has no entry,
`TypeError` when the destination has none), and the exception propagates out
of `shortest_forwarding`, aborting the handling of the packet event. -/
theorem C4_counterexample :
    get_path [] 1 2 = Except.error PyError.attributeError
    ∧ get_path [(1, [(3, [[1, 3]])])] 1 2 = Except.error PyError.typeError
    ∧ shortest_forwarding [] ⟨[(5, [])], [((6, 2), (100, 0))], [], []⟩ 5 1 0 (some 3) 2048 50 100
      = ([], some PyError.attributeError) :=
  ⟨rfl, rfl, rfl⟩

/-! ### Claim C6, counterexample -/

/-- C6 as stated is false: a submission whose target switch is absent from
`self.datapaths` is not dropped silently.  The dictionary subscription raises
`KeyError`, the submission loop aborts, and the exception propagates out of
the handler: `flood` with switch 7 unregistered and an uncovered access port
ends in `KeyError` (sending nothing), and so does `install_flow` with the
first path switch unregistered. -/
theorem C6_counterexample :
    flood [] ⟨[(7, [1])], [], [], []⟩ 99 = ([], some PyError.keyError)
    ∧ install_flow [] [] [] (some [1]) (2048, 50, 100, 9) 0 none
      = ([], some PyError.keyError) := by
  decide

/-! ### The interior loop under fully-known topology -/

theorem install_inter_from_ok (datapaths : List Dpid) (link_to_port : LinkMap)
    (fi back : Info) :
    ∀ (l : List Dpid) (prev : Dpid),
      (∀ hp ∈ hops (prev :: l),
        (get_port_pair_from_link link_to_port hp.1 hp.2).isSome = true) →
      (∀ d ∈ l.dropLast, d ∈ datapaths) →
      (install_inter_from datapaths link_to_port fi back prev l).2 = none
      ∧ (install_inter_from datapaths link_to_port fi back prev l).1.length
          = 2 * l.dropLast.length
      ∧ (∀ e ∈ (install_inter_from datapaths link_to_port fi back prev l).1,
          isFlowMod e = true)
      ∧ (∀ d : Dpid,
          flowModCount (install_inter_from datapaths link_to_port fi back prev l).1 d
            = 2 * l.dropLast.count d) := by
  intro l
  induction l with
  | nil =>
    intro prev h1 h2
    refine ⟨rfl, rfl, ?_, ?_⟩ <;> simp [install_inter_from, flowModCount]
  | cons b t ih =>
    cases t with
    | nil =>
      intro prev h1 h2
      refine ⟨rfl, rfl, ?_, ?_⟩ <;> simp [install_inter_from, flowModCount]
    | cons c rest =>
      intro prev h1 h2
      have hab := h1 (prev, b) (by rw [hops_cons_cons]; exact List.mem_cons_self _ _)
      have hbc := h1 (b, c) (by
        rw [hops_cons_cons]
        exact List.mem_cons_of_mem _ (by rw [hops_cons_cons]; exact List.mem_cons_self _ _))
      obtain ⟨pa, hpa⟩ := Option.isSome_iff_exists.mp hab
      obtain ⟨pb, hpb⟩ := Option.isSome_iff_exists.mp hbc
      have hb : b ∈ datapaths :=
        h2 b (by rw [dropLast_cons_cons]; exact List.mem_cons_self _ _)
      have ihb := ih b
        (fun hp hmem => h1 hp (by rw [hops_cons_cons]; exact List.mem_cons_of_mem _ hmem))
        (fun d hd => h2 d (by rw [dropLast_cons_cons]; exact List.mem_cons_of_mem _ hd))
      simp only [install_inter_from, hpa, hpb, if_pos hb]
      refine ⟨ihb.1, ?_, ?_, ?_⟩
      · simp only [List.length_cons, dropLast_cons_cons, ihb.2.1]
        omega
      · intro e he
        simp only [List.mem_cons] at he
        rcases he with he | he | he
        · subst he; rfl
        · subst he; rfl
        · exact ihb.2.2.1 e he
      · intro d
        rw [flowModCount_send, flowModCount_send, ihb.2.2.2 d, dropLast_cons_cons,
          List.count_cons]
        by_cases hbd : b = d <;> simp [hbd] <;> omega

/-! ### Index bookkeeping for paths -/

theorem getD_mem (p : List Dpid) (i : Nat) (h : i < p.length) : p.getD i 0 ∈ p := by
  rw [List.getD_eq_getElem _ _ h]
  exact List.getElem_mem h

theorem hops_getD_mem (p : List Dpid) : ∀ i : Nat, i + 1 < p.length →
    (p.getD i 0, p.getD (i + 1) 0) ∈ hops p := by
  induction p with
  | nil => intro i h; simp at h
  | cons a t iht =>
    intro i h
    cases t with
    | nil => simp at h
    | cons b t2 =>
      cases i with
      | zero => rw [hops_cons_cons]; exact List.mem_cons_self _ _
      | succ j =>
        rw [hops_cons_cons]
        refine List.mem_cons_of_mem _ ?_
        exact iht j (by simp at h ⊢; omega)

theorem getD_last_eq_getLast (l : List Dpid) (hl : l ≠ []) :
    l.getD (l.length - 1) 0 = l.getLast hl := by
  have hlen : 0 < l.length := List.length_pos.mpr hl
  rw [List.getD_eq_getElem _ _ (by omega)]
  exact (List.getLast_eq_getElem l hl).symm

theorem last_not_mem_dropLast (l : List Dpid) (hl : l ≠ []) (hnd : l.Nodup) :
    l.getD (l.length - 1) 0 ∉ l.dropLast := by
  rw [getD_last_eq_getLast l hl]
  have h := hnd
  rw [← List.dropLast_append_getLast hl] at h
  have hdisj := (List.nodup_append.mp h).2.2
  intro hmem
  exact hdisj hmem (List.mem_singleton.mpr rfl)

/-! ### Shape of `install_flow` on the success paths -/

theorem send_packet_out_sends (dpid : Dpid) (buffer_id : Nat) (src_port dst_port : Port)
    (data : Option Nat) (h : ¬(buffer_id = OFP_NO_BUFFER ∧ data = none)) :
    ∃ dat, send_packet_out dpid buffer_id src_port dst_port data
      = [Event.packetOut dpid buffer_id src_port (outActs dst_port) dat] := by
  by_cases hb : buffer_id = OFP_NO_BUFFER
  · cases data with
    | none => exact absurd ⟨hb, rfl⟩ h
    | some d =>
      refine ⟨some d, ?_⟩
      simp [send_packet_out, _build_packet_out, hb]
  · refine ⟨none, ?_⟩
    simp [send_packet_out, _build_packet_out, hb]

theorem install_flow_long (datapaths : List Dpid) (link_to_port : LinkMap)
    (access_table : AccessTable) (p0 : Dpid) (prest : List Dpid)
    (flow_info : Nat × Addr × Addr × Port) (buffer_id : Nat) (data : Option Nat)
    (ievs : List Event)
    (hp0 : p0 ∈ datapaths) (hlen : prest ≠ [])
    (hinter : install_inter datapaths link_to_port (fiOf flow_info) (backOf flow_info)
        (p0 :: prest) = (ievs, none)) :
    install_flow datapaths link_to_port access_table (some (p0 :: prest)) flow_info
        buffer_id data
      = (ievs ++ (install_edges datapaths link_to_port access_table (fiOf flow_info)
            (backOf flow_info) p0 (p0 :: prest) flow_info.2.2.2 buffer_id data).1,
         (install_edges datapaths link_to_port access_table (fiOf flow_info)
            (backOf flow_info) p0 (p0 :: prest) flow_info.2.2.2 buffer_id data).2) := by
  have hlen1 : 1 < (p0 :: prest).length := by
    cases prest with
    | nil => exact absurd rfl hlen
    | cons x xs => simp
  simp only [install_flow, if_pos hp0]
  rw [install_inter_gate, hinter]
  simp only [if_pos hlen1]

theorem install_edges_ok (datapaths : List Dpid) (link_to_port : LinkMap)
    (access_table : AccessTable) (fi back : Info) (p0 : Dpid) (p : List Dpid)
    (in_port : Port) (buffer_id : Nat) (data : Option Nat)
    (ppLast ppFirst : Port × Port) (dport : Port)
    (hlast : get_port_pair_from_link link_to_port (p.getD (p.length - 2) 0)
        (p.getD (p.length - 1) 0) = some ppLast)
    (hacc : get_port fi.2.2 access_table = some dport)
    (hldps : p.getD (p.length - 1) 0 ∈ datapaths)
    (hfirst : get_port_pair_from_link link_to_port p0 (p.getD 1 0) = some ppFirst) :
    install_edges datapaths link_to_port access_table fi back p0 p in_port buffer_id data
      = ([send_flow_mod (p.getD (p.length - 1) 0) fi ppLast.2 dport,
          send_flow_mod (p.getD (p.length - 1) 0) back dport ppLast.2,
          send_flow_mod p0 fi in_port ppFirst.1,
          send_flow_mod p0 back ppFirst.1 in_port]
          ++ send_packet_out p0 buffer_id in_port ppFirst.1 data, none) := by
  simp only [install_edges, hlast, hacc, hfirst, if_pos hldps]

theorem filter_flowMod_eq_self (evs : List Event) (h : ∀ e ∈ evs, isFlowMod e = true) :
    evs.filter (fun e => isFlowMod e) = evs := List.filter_eq_self.mpr h

theorem filter_nonFlowMod_eq_nil (evs : List Event) (h : ∀ e ∈ evs, isFlowMod e = true) :
    evs.filter (fun e => isFlowMod e = false) = [] := by
  rw [List.filter_eq_nil_iff]
  intro e he
  simp [h e he]

theorem flowModCount_edge_block (A B : Dpid) (fi back : Info) (x y u v : Port)
    (dpo : Dpid) (b2 : Nat) (i2 : Port) (acts : List Port) (dat : Option Nat) (d : Dpid) :
    flowModCount (send_flow_mod A fi x y :: send_flow_mod A back y x ::
      send_flow_mod B fi u v :: send_flow_mod B back v u ::
      [Event.packetOut dpo b2 i2 acts dat]) d
      = (if A = d then 2 else 0) + (if B = d then 2 else 0) := by
  by_cases hA : A = d <;> by_cases hB : B = d <;>
    simp [flowModCount, List.countP_cons, send_flow_mod, isFlowMod, eventDpid, hA, hB]

/-! ### Claim C1, amended -/

/-- C1 amended: for every path of length `n > 2` on which every hop has a
`link_to_port` entry, the destination's access output port resolves, every
path switch is registered and the switches are pairwise distinct (the Path
invariant of §3), and the triggering packet is deliverable (buffered or
carrying a payload), `install_flow` installs exactly `4 + 2(n-2)` forwarding
rules — the first and last switches get 2 each and each of the `(n-2)`
interior switches gets 2 — and exactly 1 immediate packet delivery occurs, on
the first switch.  (The claim's stated total `2 + 2(n-2)` contradicts its own
per-switch breakdown and is refuted by `C1_counterexample`.) -/
theorem C1_amended_rule_count (datapaths : List Dpid) (link_to_port : LinkMap)
    (access_table : AccessTable) (p : List Dpid) (eth : Nat) (src dst : Addr)
    (in_port : Port) (buffer_id : Nat) (data : Option Nat) (dport : Port)
    (hn : 2 < p.length) (hnd : p.Nodup)
    (hlink : ∀ hp ∈ hops p, (get_port_pair_from_link link_to_port hp.1 hp.2).isSome = true)
    (hacc : get_port dst access_table = some dport)
    (hdps : ∀ d ∈ p, d ∈ datapaths)
    (hbuf : ¬(buffer_id = OFP_NO_BUFFER ∧ data = none)) :
    (install_flow datapaths link_to_port access_table (some p) (eth, src, dst, in_port)
        buffer_id data).2 = none
    ∧ ((install_flow datapaths link_to_port access_table (some p) (eth, src, dst, in_port)
        buffer_id data).1.filter (fun e => isFlowMod e)).length = 4 + 2 * (p.length - 2)
    ∧ flowModCount (install_flow datapaths link_to_port access_table (some p)
        (eth, src, dst, in_port) buffer_id data).1 (p.getD 0 0) = 2
    ∧ flowModCount (install_flow datapaths link_to_port access_table (some p)
        (eth, src, dst, in_port) buffer_id data).1 (p.getD (p.length - 1) 0) = 2
    ∧ (∀ d ∈ mids p, flowModCount (install_flow datapaths link_to_port access_table (some p)
        (eth, src, dst, in_port) buffer_id data).1 d = 2)
    ∧ (∃ po, (install_flow datapaths link_to_port access_table (some p)
          (eth, src, dst, in_port) buffer_id data).1.filter (fun e => isFlowMod e = false)
            = [po] ∧ eventDpid po = p.getD 0 0) := by
  obtain ⟨p0, prest, rfl⟩ : ∃ p0 prest, p = p0 :: prest := by
    cases p with
    | nil => simp at hn
    | cons a t => exact ⟨a, t, rfl⟩
  have hprest2 : 2 ≤ prest.length := by simp at hn; omega
  have hprestne : prest ≠ [] := by
    intro h; rw [h] at hprest2; simp at hprest2
  obtain ⟨hp0nin, hndp⟩ := List.nodup_cons.mp hnd
  -- the interior loop succeeds and its trace is fully characterised
  have hinterc := install_inter_from_ok datapaths link_to_port (eth, src, dst)
    (eth, dst, src) prest p0 hlink
    (fun d hd => hdps d (List.mem_cons_of_mem _ ((List.dropLast_sublist prest).subset hd)))
  have hinter_eq : install_inter datapaths link_to_port
      (fiOf ((eth, src, dst, in_port) : Nat × Addr × Addr × Port))
      (backOf (eth, src, dst, in_port)) (p0 :: prest)
      = ((install_inter_from datapaths link_to_port (eth, src, dst) (eth, dst, src)
          p0 prest).1, none) :=
    Prod.ext_iff.mpr ⟨rfl, hinterc.1⟩
  have hflow := install_flow_long datapaths link_to_port access_table p0 prest
    (eth, src, dst, in_port) buffer_id data _
    (hdps p0 (List.mem_cons_self _ _)) hprestne hinter_eq
  simp only [fiOf, backOf] at hflow
  -- the two edge blocks succeed
  have hlastmem : ((p0 :: prest).getD ((p0 :: prest).length - 2) 0,
      (p0 :: prest).getD ((p0 :: prest).length - 1) 0) ∈ hops (p0 :: prest) := by
    have hmem := hops_getD_mem (p0 :: prest) ((p0 :: prest).length - 2) (by simp; omega)
    have heq : (p0 :: prest).length - 2 + 1 = (p0 :: prest).length - 1 := by simp; omega
    rwa [heq] at hmem
  obtain ⟨ppLast, hppLast⟩ := Option.isSome_iff_exists.mp (hlink _ hlastmem)
  have hfirstmem : ((p0 :: prest).getD 0 0, (p0 :: prest).getD 1 0) ∈ hops (p0 :: prest) :=
    hops_getD_mem _ 0 (by simp; omega)
  obtain ⟨ppFirst, hppFirst⟩ := Option.isSome_iff_exists.mp (hlink _ hfirstmem)
  have hlastdps : (p0 :: prest).getD ((p0 :: prest).length - 1) 0 ∈ datapaths :=
    hdps _ (getD_mem _ _ (by simp only [List.length_cons]; omega))
  have hedges := install_edges_ok datapaths link_to_port access_table (eth, src, dst)
    (eth, dst, src) p0 (p0 :: prest) in_port buffer_id data ppLast ppFirst dport
    hppLast hacc hlastdps hppFirst
  obtain ⟨dat, hpo⟩ := send_packet_out_sends p0 buffer_id in_port ppFirst.1 data hbuf
  rw [hedges] at hflow
  rw [hpo] at hflow
  simp only at hflow
  -- name the pieces
  have hlastidx : (p0 :: prest).getD ((p0 :: prest).length - 1) 0
      = prest.getD (prest.length - 1) 0 := by
    have hlen : (p0 :: prest).length - 1 = (prest.length - 1) + 1 := by simp; omega
    rw [hlen, List.getD_cons_succ]
  have hlastmemp : prest.getD (prest.length - 1) 0 ∈ prest :=
    getD_mem _ _ (by omega)
  have hlastne0 : prest.getD (prest.length - 1) 0 ≠ p0 := by
    intro h; rw [h] at hlastmemp; exact hp0nin hlastmemp
  have hlastnedrop : prest.getD (prest.length - 1) 0 ∉ prest.dropLast :=
    last_not_mem_dropLast prest hprestne hndp
  have hp0nindrop : p0 ∉ prest.dropLast :=
    fun h => hp0nin ((List.dropLast_sublist prest).subset h)
  rw [hlastidx] at hflow
  rw [hflow]
  simp only [List.getD_cons_zero, hlastidx, mids, List.tail_cons]
  have hIEall := hinterc.2.2.1
  have hIElen := hinterc.2.1
  have hIEcount := hinterc.2.2.2
  rw [List.cons_append, List.cons_append, List.cons_append, List.cons_append,
    List.nil_append] at hflow ⊢
  refine ⟨by trivial, ?_, ?_, ?_, ?_, ?_⟩
  · -- total number of rules
    rw [List.filter_append, filter_flowMod_eq_self _ hIEall]
    have h4 : ((send_flow_mod (prest.getD (prest.length - 1) 0) (eth, src, dst) ppLast.2 dport ::
        send_flow_mod (prest.getD (prest.length - 1) 0) (eth, dst, src) dport ppLast.2 ::
        send_flow_mod p0 (eth, src, dst) in_port ppFirst.1 ::
        send_flow_mod p0 (eth, dst, src) ppFirst.1 in_port ::
        [Event.packetOut p0 buffer_id in_port (outActs ppFirst.1) dat]).filter
          (fun e => isFlowMod e)).length = 4 := by
      simp [send_flow_mod, isFlowMod]
    rw [List.length_append, h4, hIElen, List.length_dropLast, List.length_cons]
    omega
  · -- first switch gets 2
    rw [flowModCount_append]
    have h0 : flowModCount (install_inter_from datapaths link_to_port (eth, src, dst)
        (eth, dst, src) p0 prest).1 p0 = 0 := by
      rw [hIEcount p0, List.count_eq_zero.mpr hp0nindrop]
    rw [h0, flowModCount_edge_block, if_neg hlastne0, if_pos rfl]
  · -- last switch gets 2
    rw [flowModCount_append]
    have h0 : flowModCount (install_inter_from datapaths link_to_port (eth, src, dst)
        (eth, dst, src) p0 prest).1 (prest.getD (prest.length - 1) 0) = 0 := by
      rw [hIEcount _, List.count_eq_zero.mpr hlastnedrop]
    rw [h0, flowModCount_edge_block, if_pos rfl,
      if_neg (fun h => hlastne0 h.symm)]
  · -- each interior switch gets 2
    intro d hd
    have hdnel : d ≠ prest.getD (prest.length - 1) 0 := by
      intro h; rw [← h] at hlastnedrop; exact hlastnedrop hd
    have hdne0 : d ≠ p0 := by
      intro h; rw [h] at hd; exact hp0nindrop hd
    rw [flowModCount_append]
    have h1 : flowModCount (install_inter_from datapaths link_to_port (eth, src, dst)
        (eth, dst, src) p0 prest).1 d = 2 := by
      rw [hIEcount d, List.count_eq_one_of_mem (List.dropLast_sublist prest |>.nodup hndp) hd]
    rw [h1, flowModCount_edge_block, if_neg (fun h => hdnel h.symm),
      if_neg (fun h => hdne0 h.symm)]
  · -- exactly one packet-out, on the first switch
    refine ⟨Event.packetOut p0 buffer_id in_port (outActs ppFirst.1) dat, ?_, rfl⟩
    rw [List.filter_append, filter_nonFlowMod_eq_nil _ hIEall]
    simp [send_flow_mod, isFlowMod]

/-! ### Claim C2, amended -/

/-- C2 amended: a missing `link_to_port` entry does not abort installation at
the failing hop.  (i) At an interior hop, a missing entry for either adjacent
link makes the loop skip only that hop's rule pair and continue with the
remaining hops.  (ii) A missing entry for the last link
(`path[-2] → path[-1]`) makes `install_flow` return at that check: the rules
already submitted by the interior loop are kept (no rollback) and nothing
further is submitted.  (iii) A missing entry for the first link
(`path[0] → path[1]`) makes the edge block return after the last-switch rules,
which are kept. -/
theorem C2_amended_no_rollback :
    (∀ (datapaths : List Dpid) (link_to_port : LinkMap) (fi back : Info)
      (a b c : Dpid) (rest : List Dpid),
      (get_port_pair_from_link link_to_port a b = none
        ∨ get_port_pair_from_link link_to_port b c = none) →
      install_inter datapaths link_to_port fi back (a :: b :: c :: rest)
        = install_inter datapaths link_to_port fi back (b :: c :: rest))
    ∧ (∀ (datapaths : List Dpid) (link_to_port : LinkMap) (access_table : AccessTable)
      (p0 : Dpid) (prest : List Dpid) (flow_info : Nat × Addr × Addr × Port)
      (buffer_id : Nat) (data : Option Nat) (ievs : List Event),
      p0 ∈ datapaths → prest ≠ [] →
      install_inter datapaths link_to_port (fiOf flow_info) (backOf flow_info) (p0 :: prest)
        = (ievs, none) →
      get_port_pair_from_link link_to_port ((p0 :: prest).getD ((p0 :: prest).length - 2) 0)
        ((p0 :: prest).getD ((p0 :: prest).length - 1) 0) = none →
      install_flow datapaths link_to_port access_table (some (p0 :: prest)) flow_info
        buffer_id data = (ievs, none))
    ∧ (∀ (datapaths : List Dpid) (link_to_port : LinkMap) (access_table : AccessTable)
      (fi back : Info) (p0 : Dpid) (p : List Dpid) (in_port : Port) (buffer_id : Nat)
      (data : Option Nat) (ppLast : Port × Port) (dport : Port),
      get_port_pair_from_link link_to_port (p.getD (p.length - 2) 0)
        (p.getD (p.length - 1) 0) = some ppLast →
      get_port fi.2.2 access_table = some dport →
      p.getD (p.length - 1) 0 ∈ datapaths →
      get_port_pair_from_link link_to_port p0 (p.getD 1 0) = none →
      install_edges datapaths link_to_port access_table fi back p0 p in_port buffer_id data
        = ([send_flow_mod (p.getD (p.length - 1) 0) fi ppLast.2 dport,
            send_flow_mod (p.getD (p.length - 1) 0) back dport ppLast.2], none)) := by
  refine ⟨?_, ?_, ?_⟩
  · intro datapaths link_to_port fi back a b c rest h
    rcases h with h | h
    · cases h2 : get_port_pair_from_link link_to_port b c <;>
        simp [install_inter, install_inter_from, h, h2]
    · cases h1 : get_port_pair_from_link link_to_port a b <;>
        simp [install_inter, install_inter_from, h, h1]
  · intro datapaths link_to_port access_table p0 prest flow_info buffer_id data ievs
      hp0 hne hinter hmiss
    rw [install_flow_long datapaths link_to_port access_table p0 prest flow_info
      buffer_id data ievs hp0 hne hinter]
    simp only [install_edges, hmiss, List.append_nil]
  · intro datapaths link_to_port access_table fi back p0 p in_port buffer_id data
      ppLast dport hlast hacc hldps hfirst
    simp only [install_edges, hlast, hacc, hfirst, if_pos hldps]

/-! ### Pair closure: every rule is submitted together with its reverse -/

theorem pairClosed_nil : pairClosed [] := by
  intro e he
  simp at he

theorem pairClosed_append (l1 l2 : List Event) (h1 : pairClosed l1) (h2 : pairClosed l2) :
    pairClosed (l1 ++ l2) := by
  intro e he hf
  rcases List.mem_append.mp he with h | h
  · exact List.mem_append.mpr (Or.inl (h1 e h hf))
  · exact List.mem_append.mpr (Or.inr (h2 e h hf))

theorem pairClosed_pair_cons (d : Dpid) (fi back : Info) (x y : Port) (t : List Event)
    (hrel : back = (fi.1, fi.2.2, fi.2.1)) (ht : pairClosed t) :
    pairClosed (send_flow_mod d fi x y :: send_flow_mod d back y x :: t) := by
  intro e he hf
  simp only [List.mem_cons] at he ⊢
  rcases he with rfl | rfl | he
  · right; left; rw [hrel]; rfl
  · left; rw [hrel]; rfl
  · right; right; exact ht e he hf

theorem pairClosed_of_noFlow (l : List Event) (h : ∀ e ∈ l, isFlowMod e = false) :
    pairClosed l := by
  intro e he hf
  rw [h e he] at hf
  exact absurd hf (by simp)

theorem send_packet_out_noFlow (dpid : Dpid) (buffer_id : Nat) (src_port dst_port : Port)
    (data : Option Nat) :
    ∀ e ∈ send_packet_out dpid buffer_id src_port dst_port data, isFlowMod e = false := by
  intro e he
  unfold send_packet_out at he
  cases hb : _build_packet_out dpid buffer_id src_port dst_port data with
  | none => rw [hb] at he; simp at he
  | some out =>
    rw [hb] at he
    simp at he
    subst he
    unfold _build_packet_out at hb
    by_cases hbuf : buffer_id = OFP_NO_BUFFER
    · rw [if_pos hbuf] at hb
      cases data with
      | none => exact absurd hb (by simp)
      | some d =>
        simp only [Option.some.injEq] at hb
        rw [← hb]
        rfl
    · rw [if_neg hbuf] at hb
      simp only [Option.some.injEq] at hb
      rw [← hb]
      rfl

theorem pairClosed_install_inter_from (datapaths : List Dpid) (link_to_port : LinkMap)
    (fi back : Info) (hrel : back = (fi.1, fi.2.2, fi.2.1)) :
    ∀ (l : List Dpid) (prev : Dpid),
      pairClosed (install_inter_from datapaths link_to_port fi back prev l).1 := by
  intro l
  induction l with
  | nil => intro prev; exact pairClosed_nil
  | cons b t ih =>
    cases t with
    | nil => intro prev; exact pairClosed_nil
    | cons c rest =>
      intro prev
      cases h1 : get_port_pair_from_link link_to_port prev b with
      | none => simp only [install_inter_from, h1]; exact ih b
      | some port =>
        cases h2 : get_port_pair_from_link link_to_port b c with
        | none => simp only [install_inter_from, h1, h2]; exact ih b
        | some port_next =>
          by_cases hb : b ∈ datapaths
          · simp only [install_inter_from, h1, h2, if_pos hb]
            exact pairClosed_pair_cons b fi back port.2 port_next.1 _ hrel (ih b)
          · simp only [install_inter_from, h1, h2, if_neg hb]
            exact pairClosed_nil

theorem pairClosed_install_edges (datapaths : List Dpid) (link_to_port : LinkMap)
    (access_table : AccessTable) (fi back : Info) (p0 : Dpid) (p : List Dpid)
    (in_port : Port) (buffer_id : Nat) (data : Option Nat)
    (hrel : back = (fi.1, fi.2.2, fi.2.1)) :
    pairClosed (install_edges datapaths link_to_port access_table fi back p0 p
      in_port buffer_id data).1 := by
  cases h1 : get_port_pair_from_link link_to_port (p.getD (p.length - 2) 0)
      (p.getD (p.length - 1) 0) with
  | none => simp only [install_edges, h1]; exact pairClosed_nil
  | some port_pair =>
    cases h2 : get_port fi.2.2 access_table with
    | none => simp only [install_edges, h1, h2]; exact pairClosed_nil
    | some dst_port =>
      by_cases hld : (p.getD (p.length - 1) 0) ∈ datapaths
      · cases h3 : get_port_pair_from_link link_to_port p0 (p.getD 1 0) with
        | none =>
          simp only [install_edges, h1, h2, h3, if_pos hld]
          exact pairClosed_pair_cons _ fi back _ _ [] hrel pairClosed_nil
        | some port_pair2 =>
          simp only [install_edges, h1, h2, h3, if_pos hld]
          refine pairClosed_append _ _ ?_ ?_
          · exact pairClosed_pair_cons _ fi back _ _ _ hrel
              (pairClosed_pair_cons _ fi back _ _ [] hrel pairClosed_nil)
          · exact pairClosed_of_noFlow _ (send_packet_out_noFlow _ _ _ _ _)
      · simp only [install_edges, h1, h2, if_neg hld]
        exact pairClosed_nil

theorem pairClosed_install_same (access_table : AccessTable) (fi back : Info)
    (p0 : Dpid) (in_port : Port) (buffer_id : Nat) (data : Option Nat)
    (hrel : back = (fi.1, fi.2.2, fi.2.1)) :
    pairClosed (install_same access_table fi back p0 in_port buffer_id data).1 := by
  cases h1 : get_port fi.2.2 access_table with
  | none => simp only [install_same, h1]; exact pairClosed_nil
  | some out_port =>
    simp only [install_same, h1]
    refine pairClosed_append _ _ ?_ ?_
    · exact pairClosed_pair_cons _ fi back _ _ [] hrel pairClosed_nil
    · exact pairClosed_of_noFlow _ (send_packet_out_noFlow _ _ _ _ _)

theorem pairClosed_install_flow (datapaths : List Dpid) (link_to_port : LinkMap)
    (access_table : AccessTable) (path : Option (List Dpid))
    (flow_info : Nat × Addr × Addr × Port) (buffer_id : Nat) (data : Option Nat) :
    pairClosed (install_flow datapaths link_to_port access_table path flow_info
      buffer_id data).1 := by
  have hrel : backOf flow_info
      = ((fiOf flow_info).1, (fiOf flow_info).2.2, (fiOf flow_info).2.1) := rfl
  cases path with
  | none => exact pairClosed_nil
  | some p =>
    cases p with
    | nil => exact pairClosed_nil
    | cons p0 prest =>
      by_cases hp0 : p0 ∈ datapaths
      · have hIE : pairClosed (install_inter datapaths link_to_port (fiOf flow_info)
            (backOf flow_info) (p0 :: prest)).1 :=
          pairClosed_install_inter_from datapaths link_to_port _ _ hrel prest p0
        simp only [install_flow, if_pos hp0, install_inter_gate]
        cases hint : install_inter datapaths link_to_port (fiOf flow_info)
            (backOf flow_info) (p0 :: prest) with
        | mk ievs ierr =>
          rw [hint] at hIE
          cases ierr with
          | some e => simpa using hIE
          | none =>
            by_cases hlen : 1 < (p0 :: prest).length
            · simp only [if_pos hlen]
              refine pairClosed_append _ _ (by simpa using hIE) ?_
              exact pairClosed_install_edges datapaths link_to_port access_table
                _ _ p0 (p0 :: prest) flow_info.2.2.2 buffer_id data hrel
            · simp only [if_neg hlen]
              exact pairClosed_install_same access_table _ _ p0
                flow_info.2.2.2 buffer_id data hrel
      · simp only [install_flow, if_neg hp0]
        exact pairClosed_nil

/-! ### Claim C3 -/

/-- C3: on every invocation of `install_flow`, rules come in both directions:
for every submitted forwarding rule matching (ingress port `p`, source `a`,
destination `b`) with output port `q` on some switch, the reverse rule
matching (ingress `q`, source `b`, destination `a`) with output `p` is
submitted to the same switch (same priority and timeouts). -/
theorem C3_bidirectional_rules (datapaths : List Dpid) (link_to_port : LinkMap)
    (access_table : AccessTable) (path : Option (List Dpid))
    (flow_info : Nat × Addr × Addr × Port) (buffer_id : Nat) (data : Option Nat) :
    ∀ e ∈ (install_flow datapaths link_to_port access_table path flow_info
        buffer_id data).1,
      isFlowMod e = true →
      revEvent e ∈ (install_flow datapaths link_to_port access_table path flow_info
        buffer_id data).1 :=
  pairClosed_install_flow datapaths link_to_port access_table path flow_info
    buffer_id data

/-- Witness for C3: on the one-switch path `[5]`, the forward rule
`(in 9, 50 → 100, out 4)` is installed, and its reverse
`(in 4, 100 → 50, out 9)` is indeed in the trace. -/
theorem C3_bidirectional_rules_witness :
    revEvent (Event.flowMod 5 1 2048 50 100 9 4 15 60)
      ∈ (install_flow [5] [] [((5, 4), (100, 0))] (some [5]) (2048, 50, 100, 9) 0 none).1 :=
  C3_bidirectional_rules [5] [] [((5, 4), (100, 0))] (some [5]) (2048, 50, 100, 9) 0 none
    (Event.flowMod 5 1 2048 50 100 9 4 15 60) (by decide) (by decide)

/-! ### Claim C1, witness -/

/-- Witness for the amended C1 on the concrete 3-switch path `[1, 2, 3]`. -/
theorem C1_amended_rule_count_witness :
    (install_flow [1, 2, 3] [((1, 2), (12, 21)), ((2, 3), (23, 32))] [((3, 31), (100, 7))]
        (some [1, 2, 3]) (2048, 50, 100, 9) 0 none).2 = none
    ∧ ((install_flow [1, 2, 3] [((1, 2), (12, 21)), ((2, 3), (23, 32))] [((3, 31), (100, 7))]
        (some [1, 2, 3]) (2048, 50, 100, 9) 0 none).1.filter
          (fun e => isFlowMod e)).length = 4 + 2 * (([1, 2, 3] : List Dpid).length - 2)
    ∧ flowModCount (install_flow [1, 2, 3] [((1, 2), (12, 21)), ((2, 3), (23, 32))]
        [((3, 31), (100, 7))] (some [1, 2, 3]) (2048, 50, 100, 9) 0 none).1 2 = 2 := by
  have h := C1_amended_rule_count [1, 2, 3] [((1, 2), (12, 21)), ((2, 3), (23, 32))]
    [((3, 31), (100, 7))] [1, 2, 3] 2048 50 100 9 0 none 31
    (by decide) (by decide) (by decide) (by decide) (by decide) (by decide)
  exact ⟨h.1, h.2.1, h.2.2.2.2.1 2 (by decide)⟩

/-! ### Claim C2, witness -/

/-- Witness for the amended C2: a missing first link makes the interior loop
skip hop 2 and continue, and a missing last link makes `install_flow` return
normally with the (here empty) earlier submissions kept. -/
theorem C2_amended_no_rollback_witness :
    install_inter [] [] (2048, 50, 100) (2048, 100, 50) [1, 2, 3]
      = install_inter [] [] (2048, 50, 100) (2048, 100, 50) [2, 3]
    ∧ install_flow [1] [] [] (some [1, 2]) (2048, 50, 100, 9) 0 none = ([], none) := by
  constructor
  · exact C2_amended_no_rollback.1 [] [] (2048, 50, 100) (2048, 100, 50) 1 2 3 []
      (Or.inl rfl)
  · exact C2_amended_no_rollback.2.1 [1] [] [] 1 [2] (2048, 50, 100, 9) 0 none []
      (by decide) (by decide) rfl rfl

/-! ### Claim C4, amended -/

/-- C4 amended: for a pair with no entry in the shortest-path table,
`get_path` raises an unhandled exception — `AttributeError` when the source
switch is absent (from `None.get(dst)`), `TypeError` when only the destination
is absent (from `None[0]`) — and the exception propagates through
`shortest_forwarding` (which has no handler), aborting the event; no
`PathNotFound` reporting exists. -/
theorem C4_amended_unhandled_error :
    (∀ (shortest_paths : PathTable) (src dst : Dpid),
      shortest_paths.lookup src = none →
      get_path shortest_paths src dst = .error .attributeError)
    ∧ (∀ (shortest_paths : PathTable) (src dst : Dpid)
        (inner : List (Dpid × List (List Dpid))),
      shortest_paths.lookup src = some inner → inner.lookup dst = none →
      get_path shortest_paths src dst = .error .typeError)
    ∧ (∀ (datapaths : List Dpid) (awareness : Awareness) (dpid : Dpid) (in_port : Port)
        (buffer_id : Nat) (data : Option Nat) (eth_type : Nat) (ip_src ip_dst : Addr)
        (s d : Dpid) (err : PyError),
      get_sw awareness dpid in_port ip_src ip_dst = .ok (some (s, some d)) →
      d ≠ 0 →
      get_path awareness.shortest_paths s d = .error err →
      shortest_forwarding datapaths awareness dpid in_port buffer_id data eth_type
        ip_src ip_dst = ([], some err)) := by
  refine ⟨?_, ?_, ?_⟩
  · intro sp src dst h
    simp [get_path, h]
  · intro sp src dst inner h1 h2
    simp [get_path, h1, h2]
  · intro datapaths awareness dpid in_port buffer_id data eth_type ip_src ip_dst s d err
      hsw hd hp
    simp [shortest_forwarding, hsw, hd, hp]

/-- Witness for the amended C4 at concrete tables. -/
theorem C4_amended_unhandled_error_witness :
    get_path [] 3 4 = Except.error PyError.attributeError
    ∧ get_path [(3, [(9, [[3, 9]])])] 3 4 = Except.error PyError.typeError := by
  constructor
  · exact C4_amended_unhandled_error.1 [] 3 4 rfl
  · exact C4_amended_unhandled_error.2.1 [(3, [(9, [[3, 9]])])] 3 4 [(9, [[3, 9]])] rfl rfl

/-! ### Claim C5 -/

/-- C5: with the ingress switch present in `access_ports` (so that the lookup
itself does not raise), `get_sw` returns `None` exactly in the
attachment-mismatch case: the ingress port is a registered access port of the
switch and the host-location record of the claimed source address is not
`(dpid, in_port)` (in particular also when the source has no record at all).
In that case `shortest_forwarding` installs no rule and raises nothing; and
when the destination address has no host-location record, installation is
likewise skipped without an error (a normal deferred state). -/
theorem C5_resolver_mismatch_only (awareness : Awareness) (dpid : Dpid) (in_port : Port)
    (src dst : Addr) (ports : List Port) (datapaths : List Dpid) (buffer_id : Nat)
    (data : Option Nat) (eth_type : Nat)
    (hports : awareness.access_ports.lookup dpid = some ports) :
    (get_sw awareness dpid in_port src dst = .ok none ↔
      (in_port ∈ ports
        ∧ get_host_location awareness.access_table src ≠ some (dpid, in_port)))
    ∧ (get_sw awareness dpid in_port src dst = .ok none →
        shortest_forwarding datapaths awareness dpid in_port buffer_id data eth_type src dst
          = ([], none))
    ∧ (get_host_location awareness.access_table dst = none →
        get_sw awareness dpid in_port src dst ≠ .ok none →
        shortest_forwarding datapaths awareness dpid in_port buffer_id data eth_type src dst
          = ([], none)) := by
  refine ⟨?_, ?_, ?_⟩
  · simp only [get_sw, hports]
    by_cases hin : in_port ∈ ports
    · by_cases hsl : some ((dpid, in_port) : Dpid × Port)
          = get_host_location awareness.access_table src
      · simp only [if_pos hin, if_pos hsl, get_sw_result]
        constructor
        · intro h
          simp at h
        · intro h
          exact absurd hsl.symm h.2
      · simp only [if_pos hin, if_neg hsl]
        constructor
        · intro _
          exact ⟨hin, fun h => hsl h.symm⟩
        · intro _
          trivial
    · simp only [if_neg hin, get_sw_result]
      constructor
      · intro h
        simp at h
      · intro h
        exact absurd h.1 hin
  · intro h
    simp [shortest_forwarding, h]
  · intro hdst hno
    have hsw : get_sw awareness dpid in_port src dst = .ok (some (dpid, none)) := by
      by_cases hin : in_port ∈ ports
      · by_cases hsl : some ((dpid, in_port) : Dpid × Port)
            = get_host_location awareness.access_table src
        · simp [get_sw, hports, if_pos hin, if_pos hsl, get_sw_result, hdst]
        · exact absurd (by simp [get_sw, hports, if_pos hin, if_neg hsl]) hno
      · simp [get_sw, hports, if_neg hin, get_sw_result, hdst]
    simp [shortest_forwarding, hsw]

/-- Witness for C5: ingress port 2 of switch 7 is a registered access port,
but host 50 is recorded at `(7, 1)`; resolution returns `None` and no rule is
installed. -/
theorem C5_resolver_mismatch_only_witness :
    get_sw ⟨[(7, [1, 2])], [((7, 1), (50, 0)), ((6, 2), (100, 0))], [], []⟩ 7 2 50 100
      = .ok none
    ∧ shortest_forwarding [] ⟨[(7, [1, 2])], [((7, 1), (50, 0)), ((6, 2), (100, 0))], [], []⟩
        7 2 0 none 2048 50 100 = ([], none) := by
  have h := C5_resolver_mismatch_only
    ⟨[(7, [1, 2])], [((7, 1), (50, 0)), ((6, 2), (100, 0))], [], []⟩
    7 2 50 100 [1, 2] [] 0 none 2048 rfl
  have h1 := h.1.mpr ⟨by decide, by decide⟩
  exact ⟨h1, h.2.1 h1⟩

/-! ### Claim C6, amended -/

theorem floodPorts_keyError (datapaths : List Dpid) (access_table : AccessTable)
    (data : Nat) (d : Dpid) (hd : d ∉ datapaths) :
    ∀ ports : List Port, (∃ q ∈ ports, access_table.lookup (d, q) = none) →
    floodPorts datapaths access_table data d ports = ([], some PyError.keyError) := by
  intro ports
  induction ports with
  | nil => intro h; simp at h
  | cons q qs ih =>
    intro hex
    rcases hex with ⟨q2, hq2mem, hq2⟩
    simp only [List.mem_cons] at hq2mem
    rcases hq2mem with rfl | hq2mem
    · simp [floodPorts, hq2, hd]
    · by_cases hq : (access_table.lookup (d, q)).isSome
      · simp only [floodPorts, if_pos hq]
        exact ih ⟨q2, hq2mem, hq2⟩
      · simp [floodPorts, hq, hd]

/-! ### Claim C7 -/

theorem floodPorts_spec (datapaths : List Dpid) (access_table : AccessTable) (data : Nat)
    (d : Dpid) (hd : d ∈ datapaths) :
    ∀ ports : List Port,
      floodPorts datapaths access_table data d ports
        = ((ports.filter (fun q => (access_table.lookup (d, q)).isNone)).map
            (fun q => Event.packetOut d OFP_NO_BUFFER OFPP_CONTROLLER (outActs q)
              (some data)), none) := by
  intro ports
  induction ports with
  | nil => rfl
  | cons q qs ih =>
    cases hq : access_table.lookup (d, q) with
    | some v => simp [floodPorts, hq, ih, List.filter_cons]
    | none => simp [floodPorts, hq, hd, ih, List.filter_cons, _build_packet_out]

theorem floodLoop_spec (datapaths : List Dpid) (access_table : AccessTable) (data : Nat) :
    ∀ aps : List (Dpid × List Port), (∀ pr ∈ aps, pr.1 ∈ datapaths) →
      floodLoop datapaths access_table data aps
        = (floodSpec access_table data aps, none) := by
  intro aps
  induction aps with
  | nil => intro h; rfl
  | cons pr rest ih =>
    intro h
    obtain ⟨d, ports⟩ := pr
    have hd : d ∈ datapaths := h (d, ports) (List.mem_cons_self _ _)
    have hrest := ih (fun pr2 hpr2 => h pr2 (List.mem_cons_of_mem _ hpr2))
    simp [floodLoop, floodPorts_spec datapaths access_table data d hd ports, hrest,
      floodSpec]

theorem floodLoop_append_regs (datapaths : List Dpid) (access_table : AccessTable)
    (data : Nat) :
    ∀ (aps1 aps2 : List (Dpid × List Port)), (∀ pr ∈ aps1, pr.1 ∈ datapaths) →
      floodLoop datapaths access_table data (aps1 ++ aps2)
        = (floodSpec access_table data aps1
            ++ (floodLoop datapaths access_table data aps2).1,
           (floodLoop datapaths access_table data aps2).2) := by
  intro aps1 aps2
  induction aps1 with
  | nil => intro h; simp [floodSpec]
  | cons pr rest ih =>
    intro h
    obtain ⟨d, ports⟩ := pr
    have hd : d ∈ datapaths := h (d, ports) (List.mem_cons_self _ _)
    have hrest := ih (fun pr2 hpr2 => h pr2 (List.mem_cons_of_mem _ hpr2))
    simp [floodLoop, floodPorts_spec datapaths access_table data d hd ports, hrest,
      floodSpec]

/-- C6 amended: for every submission whose target switch handle is absent
from the registry at submission time, the `datapaths[dpid]` subscription
raises `KeyError`: that submission is not made, the remaining submissions of
the same operation are abandoned, submissions already made are kept, and the
error propagates to the caller (neither silent nor recoverable within the
event).  The parts cover every position of the absent switch: (1) an absent
first path switch aborts `install_flow` before anything is sent; (2) a
successful interior hop prepends its rule pair to whatever the rest of the
loop produces, so rules already submitted are kept when a later hop fails;
(3) an absent interior switch, reached with both its port pairs resolved,
stops the loop with `KeyError` — its own rules and all later hops' are never
submitted; (4) `install_flow` returns the interior loop's partial trace
together with its error, abandoning the last-switch rules, the first-switch
rules and the packet-out; (5) an absent last switch, reached after the
interior loop and both port resolutions succeeded, keeps the interior rules
and abandons the edge rules and the packet-out; (6) in `flood`, an absent
switch part-way through the iteration keeps the directives already sent for
the earlier (registered) switches and abandons its own and all later ones. -/
theorem C6_amended_keyerror_abort :
    (∀ (datapaths : List Dpid) (link_to_port : LinkMap) (access_table : AccessTable)
      (flow_info : Nat × Addr × Addr × Port) (buffer_id : Nat) (data : Option Nat)
      (p0 : Dpid) (prest : List Dpid),
      p0 ∉ datapaths →
      install_flow datapaths link_to_port access_table (some (p0 :: prest)) flow_info
        buffer_id data = ([], some PyError.keyError))
    ∧ (∀ (datapaths : List Dpid) (link_to_port : LinkMap) (fi back : Info)
      (prev b c : Dpid) (rest : List Dpid) (port port_next : Port × Port)
      (r : List Event × Option PyError),
      get_port_pair_from_link link_to_port prev b = some port →
      get_port_pair_from_link link_to_port b c = some port_next →
      b ∈ datapaths →
      install_inter_from datapaths link_to_port fi back b (c :: rest) = r →
      install_inter_from datapaths link_to_port fi back prev (b :: c :: rest)
        = (send_flow_mod b fi port.2 port_next.1
            :: send_flow_mod b back port_next.1 port.2 :: r.1, r.2))
    ∧ (∀ (datapaths : List Dpid) (link_to_port : LinkMap) (fi back : Info)
      (prev b c : Dpid) (rest : List Dpid) (port port_next : Port × Port),
      get_port_pair_from_link link_to_port prev b = some port →
      get_port_pair_from_link link_to_port b c = some port_next →
      b ∉ datapaths →
      install_inter_from datapaths link_to_port fi back prev (b :: c :: rest)
        = ([], some PyError.keyError))
    ∧ (∀ (datapaths : List Dpid) (link_to_port : LinkMap) (access_table : AccessTable)
      (flow_info : Nat × Addr × Addr × Port) (buffer_id : Nat) (data : Option Nat)
      (p0 : Dpid) (prest : List Dpid) (ievs : List Event) (e : PyError),
      p0 ∈ datapaths →
      install_inter datapaths link_to_port (fiOf flow_info) (backOf flow_info)
        (p0 :: prest) = (ievs, some e) →
      install_flow datapaths link_to_port access_table (some (p0 :: prest)) flow_info
        buffer_id data = (ievs, some e))
    ∧ (∀ (datapaths : List Dpid) (link_to_port : LinkMap) (access_table : AccessTable)
      (flow_info : Nat × Addr × Addr × Port) (buffer_id : Nat) (data : Option Nat)
      (p0 : Dpid) (prest : List Dpid) (ievs : List Event) (ppLast : Port × Port)
      (dport : Port),
      p0 ∈ datapaths → prest ≠ [] →
      install_inter datapaths link_to_port (fiOf flow_info) (backOf flow_info)
        (p0 :: prest) = (ievs, none) →
      get_port_pair_from_link link_to_port
        ((p0 :: prest).getD ((p0 :: prest).length - 2) 0)
        ((p0 :: prest).getD ((p0 :: prest).length - 1) 0) = some ppLast →
      get_port (fiOf flow_info).2.2 access_table = some dport →
      (p0 :: prest).getD ((p0 :: prest).length - 1) 0 ∉ datapaths →
      install_flow datapaths link_to_port access_table (some (p0 :: prest)) flow_info
        buffer_id data = (ievs, some PyError.keyError))
    ∧ (∀ (datapaths : List Dpid) (awareness : Awareness) (data : Nat)
      (aps1 : List (Dpid × List Port)) (d : Dpid) (ports : List Port)
      (rest : List (Dpid × List Port)),
      awareness.access_ports = aps1 ++ (d, ports) :: rest →
      (∀ pr ∈ aps1, pr.1 ∈ datapaths) →
      d ∉ datapaths →
      (∃ q ∈ ports, awareness.access_table.lookup (d, q) = none) →
      flood datapaths awareness data
        = (floodSpec awareness.access_table data aps1, some PyError.keyError)) := by
  refine ⟨?_, ?_, ?_, ?_, ?_, ?_⟩
  · intro datapaths link_to_port access_table flow_info buffer_id data p0 prest hp0
    simp [install_flow, if_neg hp0]
  · intro datapaths link_to_port fi back prev b c rest port port_next r h1 h2 hb hr
    simp only [install_inter_from, h1, h2, if_pos hb, hr]
  · intro datapaths link_to_port fi back prev b c rest port port_next h1 h2 hb
    simp only [install_inter_from, h1, h2, if_neg hb]
  · intro datapaths link_to_port access_table flow_info buffer_id data p0 prest ievs e
      hp0 hinter
    simp only [install_flow, if_pos hp0]
    rw [install_inter_gate, hinter]
  · intro datapaths link_to_port access_table flow_info buffer_id data p0 prest ievs
      ppLast dport hp0 hne hinter hlast hacc habs
    rw [install_flow_long datapaths link_to_port access_table p0 prest flow_info
      buffer_id data ievs hp0 hne hinter]
    simp only [install_edges, hlast, hacc, if_neg habs, List.append_nil]
  · intro datapaths awareness data aps1 d ports rest haps h1 hd hex
    have hfp := floodPorts_keyError datapaths awareness.access_table data d hd ports hex
    unfold flood
    rw [haps, floodLoop_append_regs datapaths awareness.access_table data aps1
      ((d, ports) :: rest) h1]
    simp [floodLoop, hfp]

/-- Witness for the amended C6, exercising non-vacuous positions: an absent
interior switch (3 in path `[1, 2, 3, 4]`) keeps the two rules already
installed on switch 2 and abandons the rest; an absent last switch (3 in path
`[1, 2, 3]`) keeps the two interior rules on switch 2; and an absent second
flood switch (8) keeps the directive already sent for registered switch 5. -/
theorem C6_amended_keyerror_abort_witness :
    install_flow [1, 2, 4] [((1, 2), (12, 21)), ((2, 3), (23, 32)), ((3, 4), (34, 43))]
        [((4, 44), (100, 7))] (some [1, 2, 3, 4]) (2048, 50, 100, 9) 0 none
      = ([Event.flowMod 2 1 2048 50 100 21 23 15 60,
          Event.flowMod 2 1 2048 100 50 23 21 15 60], some PyError.keyError)
    ∧ install_flow [1, 2] [((1, 2), (12, 21)), ((2, 3), (23, 32))] [((3, 31), (100, 7))]
        (some [1, 2, 3]) (2048, 50, 100, 9) 0 none
      = ([Event.flowMod 2 1 2048 50 100 21 23 15 60,
          Event.flowMod 2 1 2048 100 50 23 21 15 60], some PyError.keyError)
    ∧ flood [5] ⟨[(5, [1]), (8, [2])], [], [], []⟩ 42
      = (floodSpec [] 42 [(5, [1])], some PyError.keyError) := by
  refine ⟨?_, ?_, ?_⟩
  · have h3 := C6_amended_keyerror_abort.2.2.1 [1, 2, 4]
      [((1, 2), (12, 21)), ((2, 3), (23, 32)), ((3, 4), (34, 43))]
      (2048, 50, 100) (2048, 100, 50) 2 3 4 [] (23, 32) (34, 43) rfl rfl (by decide)
    have h2 := C6_amended_keyerror_abort.2.1 [1, 2, 4]
      [((1, 2), (12, 21)), ((2, 3), (23, 32)), ((3, 4), (34, 43))]
      (2048, 50, 100) (2048, 100, 50) 1 2 3 [4] (12, 21) (23, 32)
      ([], some PyError.keyError) rfl rfl (by decide) h3
    exact C6_amended_keyerror_abort.2.2.2.1 [1, 2, 4]
      [((1, 2), (12, 21)), ((2, 3), (23, 32)), ((3, 4), (34, 43))] [((4, 44), (100, 7))]
      (2048, 50, 100, 9) 0 none 1 [2, 3, 4]
      [Event.flowMod 2 1 2048 50 100 21 23 15 60,
       Event.flowMod 2 1 2048 100 50 23 21 15 60] PyError.keyError (by decide) h2
  · exact C6_amended_keyerror_abort.2.2.2.2.1 [1, 2]
      [((1, 2), (12, 21)), ((2, 3), (23, 32))] [((3, 31), (100, 7))]
      (2048, 50, 100, 9) 0 none 1 [2, 3]
      [Event.flowMod 2 1 2048 50 100 21 23 15 60,
       Event.flowMod 2 1 2048 100 50 23 21 15 60] (23, 32) 31
      (by decide) (by decide) rfl rfl rfl (by decide)
  · exact C6_amended_keyerror_abort.2.2.2.2.2 [5] ⟨[(5, [1]), (8, [2])], [], [], []⟩ 42
      [(5, [1])] 8 [2] [] rfl (by decide) (by decide) ⟨2, by decide, rfl⟩

/-- C7: when the destination of an address-resolution packet has no
host-location record, `arp_forwarding` floods: one forward-only directive
carrying the payload is sent out of every registered access port with no
`access_table` record (from the controller-facing logical port, unbuffered),
and out of no other port — exactly the trace described by `floodSpec`.  In
particular, with `access_ports = {7: [1,2,3]}` and only `(7,1)` covered,
exactly 2 directives are sent, to ports 2 and 3 of switch 7. -/
theorem C7_flood_unknown_ports (datapaths : List Dpid) (awareness : Awareness)
    (data : Nat) (src_ip dst_ip : Addr)
    (hreg : ∀ pr ∈ awareness.access_ports, pr.1 ∈ datapaths)
    (hunknown : get_host_location awareness.access_table dst_ip = none) :
    arp_forwarding datapaths awareness data src_ip dst_ip
      = (floodSpec awareness.access_table data awareness.access_ports, none)
    ∧ flood [7] ⟨[(7, [1, 2, 3])], [((7, 1), (100, 200))], [], []⟩ 99
      = ([Event.packetOut 7 OFP_NO_BUFFER OFPP_CONTROLLER [2] (some 99),
          Event.packetOut 7 OFP_NO_BUFFER OFPP_CONTROLLER [3] (some 99)], none) := by
  constructor
  · simp only [arp_forwarding, hunknown]
    exact floodLoop_spec datapaths awareness.access_table data awareness.access_ports hreg
  · decide

/-- Witness for C7 at the concrete topology of the claim, with an
address-resolution query for the unknown address 123. -/
theorem C7_flood_unknown_ports_witness :
    arp_forwarding [7] ⟨[(7, [1, 2, 3])], [((7, 1), (100, 200))], [], []⟩ 99 55 123
      = (floodSpec [((7, 1), (100, 200))] 99 [(7, [1, 2, 3])], none) :=
  (C7_flood_unknown_ports [7] ⟨[(7, [1, 2, 3])], [((7, 1), (100, 200))], [], []⟩
    99 55 123 (by decide) (by decide)).1

/-! ### Claim C8 -/

/-- C8: when the destination of an address-resolution packet has a
host-location record `(s, q)` and switch `s` is registered, `arp_forwarding`
submits exactly one forward-only directive — to switch `s`, out port `q`,
from the controller-facing port, unbuffered, carrying the original payload —
with no flooding and no rule installation.  In particular, with the record
`(7, 3) ↦ (H2 = 100, ...)`, the query for 100 yields exactly one directive to
switch 7, port 3. -/
theorem C8_arp_unicast_known_host (datapaths : List Dpid) (awareness : Awareness)
    (data : Nat) (src_ip dst_ip : Addr) (s : Dpid) (q : Port)
    (hloc : get_host_location awareness.access_table dst_ip = some (s, q))
    (hreg : s ∈ datapaths) :
    arp_forwarding datapaths awareness data src_ip dst_ip
      = ([Event.packetOut s OFP_NO_BUFFER OFPP_CONTROLLER (outActs q) (some data)], none)
    ∧ arp_forwarding [7] ⟨[(7, [3])], [((7, 3), (100, 200))], [], []⟩ 99 55 100
      = ([Event.packetOut 7 OFP_NO_BUFFER OFPP_CONTROLLER [3] (some 99)], none) := by
  constructor
  · simp [arp_forwarding, hloc, hreg, _build_packet_out]
  · decide

/-- Witness for C8 at the concrete host-location table of the claim. -/
theorem C8_arp_unicast_known_host_witness :
    arp_forwarding [7] ⟨[(7, [3])], [((7, 3), (100, 200))], [], []⟩ 99 55 100
      = ([Event.packetOut 7 OFP_NO_BUFFER OFPP_CONTROLLER (outActs 3) (some 99)], none) :=
  (C8_arp_unicast_known_host [7] ⟨[(7, [3])], [((7, 3), (100, 200))], [], []⟩ 99 55 100
    7 3 (by decide) (by decide)).1

/-! ### Claim C9 -/

theorem flowTableAfter_not_written (evs : List Event) :
    ∀ (tbl : RuleKey → Option RuleVal) (k : RuleKey),
      (¬ ∃ e ∈ evs, ∃ v, eventRule e = some (k, v)) →
      flowTableAfter evs tbl k = tbl k := by
  induction evs with
  | nil => intro tbl k h; rfl
  | cons e t ih =>
    intro tbl k h
    have h1 : ¬ ∃ e2 ∈ t, ∃ v, eventRule e2 = some (k, v) := by
      intro hc
      rcases hc with ⟨e2, he2, v, hv⟩
      exact h ⟨e2, List.mem_cons_of_mem _ he2, v, hv⟩
    have h2 : ∀ v, eventRule e ≠ some (k, v) := by
      intro v hv
      exact h ⟨e, List.mem_cons_self _ _, v, hv⟩
    show flowTableAfter t (applyEvent tbl e) k = tbl k
    rw [ih (applyEvent tbl e) k h1]
    unfold applyEvent
    cases he : eventRule e with
    | none => rfl
    | some kv =>
      have hne : kv.1 ≠ k := by
        intro hk
        apply h2 kv.2
        rw [he, ← hk, Prod.mk.eta]
      exact Function.update_noteq (fun hkk => hne hkk.symm) _ tbl

theorem flowTableAfter_written (evs : List Event) :
    ∀ (tbl tbl2 : RuleKey → Option RuleVal) (k : RuleKey),
      (∃ e ∈ evs, ∃ v, eventRule e = some (k, v)) →
      flowTableAfter evs tbl k = flowTableAfter evs tbl2 k := by
  induction evs with
  | nil => intro tbl tbl2 k h; simp at h
  | cons e t ih =>
    intro tbl tbl2 k h
    show flowTableAfter t (applyEvent tbl e) k = flowTableAfter t (applyEvent tbl2 e) k
    by_cases ht : ∃ e2 ∈ t, ∃ v, eventRule e2 = some (k, v)
    · exact ih _ _ k ht
    · have he : ∃ v, eventRule e = some (k, v) := by
        rcases h with ⟨e2, he2, v, hv⟩
        simp only [List.mem_cons] at he2
        rcases he2 with rfl | he2
        · exact ⟨v, hv⟩
        · exact absurd ⟨e2, he2, v, hv⟩ ht
      rcases he with ⟨v, hv⟩
      rw [flowTableAfter_not_written t _ k ht, flowTableAfter_not_written t _ k ht]
      unfold applyEvent
      rw [hv]
      simp [Function.update_same]

theorem flowTableAfter_twice (evs : List Event) (tbl : RuleKey → Option RuleVal) :
    flowTableAfter (evs ++ evs) tbl = flowTableAfter evs tbl := by
  funext k
  unfold flowTableAfter
  rw [List.foldl_append]
  by_cases h : ∃ e ∈ evs, ∃ v, eventRule e = some (k, v)
  · exact flowTableAfter_written evs _ tbl k h
  · exact flowTableAfter_not_written evs _ k h

/-- C9: `install_flow` reads no mutable controller state, so invoking it twice
with the same flow descriptor, path, `link_to_port` and `access_table`
contents yields rule submissions with identical match/action content (in the
pure embedding the two traces are one and the same term), and replaying the
combined two-run trace onto any switch flow-table state leaves exactly the
state of a single run: re-adding a rule with an identical match key replaces
the entry (refreshing timers) — no accumulation, no divergence. -/
theorem C9_repeat_install_identical (datapaths : List Dpid) (link_to_port : LinkMap)
    (access_table : AccessTable) (path : Option (List Dpid))
    (flow_info : Nat × Addr × Addr × Port) (buffer_id : Nat) (data : Option Nat)
    (tbl : RuleKey → Option RuleVal) :
    (install_flow datapaths link_to_port access_table path flow_info buffer_id data).1
      = (install_flow datapaths link_to_port access_table path flow_info buffer_id data).1
    ∧ flowTableAfter
        ((install_flow datapaths link_to_port access_table path flow_info buffer_id data).1
          ++ (install_flow datapaths link_to_port access_table path flow_info
                buffer_id data).1) tbl
      = flowTableAfter
          (install_flow datapaths link_to_port access_table path flow_info buffer_id data).1
          tbl :=
  ⟨rfl, flowTableAfter_twice _ tbl⟩
